import Mathlib

/-!
Verification of the ai-media-generator repository's generation-dispatch,
placeholder-synthesis and file-bookkeeping logic, as a shallow embedding of
`src/generators/video_generator.py`, `src/generators/image_generator.py` and
`src/utils/file_manager.py`.

Conventions of the embedding:
* Python floats (`time.time()`, `st_mtime`, motion-math arithmetic) are
  modelled as rationals `ℚ`.
* Raised exceptions are modelled as `Except.error` carrying the wrapped
  message; normal returns as `Except.ok`.
* Calls into the opaque image-processing library (cv2's `imread`, `resize`,
  `warpAffine`, the wave pixel loop, frame drawing) are uninterpreted
  functions carried in an `Env` record, together with the availability flag
  `CV2_AVAILABLE` and the `time.time()` timestamp.  The dispatch logic,
  branch structure, parameter arithmetic and artifact contents are translated
  directly from the source.
-/

namespace MediaGen

/-- Python's `pat in s` substring test, over explicit character lists:
`isPrefixList p l` is true iff `p` is a prefix of `l`. -/
def isPrefixList : List Char → List Char → Bool
  | [], _ => true
  | _ :: _, [] => false
  | a :: pa, b :: lb => a == b && isPrefixList pa lb

/-- `containsSub pat l` is true iff `pat` occurs as a contiguous sublist of `l`. -/
def containsSub (pat : List Char) : List Char → Bool
  | [] => decide (pat = [])
  | c :: t => isPrefixList pat (c :: t) || containsSub pat t

/-- Python's `pat in s` on strings. -/
def strContains (s pat : String) : Bool :=
  containsSub pat.data s.data

/-- Python's `pat in s.lower()`: the haystack is lowercased character by
character before the substring test. -/
def strContainsLower (s pat : String) : Bool :=
  containsSub pat.data (s.data.map Char.toLower)

/-- Pixel images (rows of BGR triples), standing for cv2's numpy arrays. -/
abbrev Image := List (List (Nat × Nat × Nat))

/-- The motion effect selected by `_apply_motion_effects` for one frame,
with the parameter computed there: `zoom` carries `scale = 1.0 + 0.2 * progress`,
`wave` carries `progress` (the source derives `wave_amp = 20 * sin(2π·progress)`
from it inside the pixel loop), `rotate` carries `angle = 360 * progress`,
and `copy` is the untouched `base_image.copy()` when no keyword matches. -/
inductive MotionOp where
  | copy
  | zoom (scale : ℚ)
  | wave (progress : ℚ)
  | rotate (angle : ℚ)
deriving DecidableEq

/-- The branch selection and parameter arithmetic of `_apply_motion_effects`
(`video_generator.py` lines 201-238): case-insensitive substring dispatch on
the motion prompt, in source order zoom / wave / rotate, else the plain copy. -/
def selectMotionOp (motionPrompt : String) (frameNum totalFrames : Nat) : MotionOp :=
  let progress : ℚ := (frameNum : ℚ) / (totalFrames : ℚ)
  if strContainsLower motionPrompt "zoom" then
    MotionOp.zoom (1 + (1 / 5) * progress)
  else if strContainsLower motionPrompt "wave" then
    MotionOp.wave progress
  else if strContainsLower motionPrompt "rotate" then
    MotionOp.rotate (360 * progress)
  else
    MotionOp.copy

/-- `_apply_motion_effects`: the selected effect is carried out by the
image-processing library, modelled by the uninterpreted `fx`; when no keyword
matches, the frame is returned as the untouched copy of the base image. -/
def applyMotionEffects (fx : MotionOp → Image → Image) (baseImage : Image)
    (motionPrompt : String) (frameNum totalFrames : Nat) : Image :=
  match selectMotionOp motionPrompt frameNum totalFrames with
  | MotionOp.copy => baseImage
  | op => fx op baseImage

/-- The ambient state of a `VideoGenerator` call: cv2 availability, the
results of cv2's image loading/resizing/effect primitives (uninterpreted),
the frame renderer of `_create_animated_frame`, and the `time.time()` stamp. -/
structure Env where
  cv2Available : Bool
  loadImage : String → Option Image
  resize : Image → Nat → Nat → Image
  motionFx : MotionOp → Image → Image
  createFrame : String → String → Nat → Nat → Nat → Nat → Image
  timestamp : Nat

/-- `_get_resolution_dimensions` (`video_generator.py` lines 166-174):
dictionary lookup with default `(1920, 1080)`. -/
def getResolutionDimensions (resolution : String) : Nat × Nat :=
  if resolution = "720p" then (1280, 720)
  else if resolution = "1080p" then (1920, 1080)
  else if resolution = "4K" then (3840, 2160)
  else if resolution = "square" then (1024, 1024)
  else (1920, 1080)

/-- The request parameters recorded inside a placeholder text file by
`_generate_placeholder_video`. -/
structure PlaceholderVideo where
  prompt : String
  duration : Nat
  fps : Nat
  resolution : String
  style : String
deriving DecidableEq

/-- A produced video artifact: either the placeholder `.txt` file or an
`.mp4` written frame by frame through cv2's `VideoWriter`. -/
inductive VideoArtifact where
  | placeholderText (fileName : String) (info : PlaceholderVideo)
  | mp4 (fileName : String) (width height fps : Nat) (frames : List Image)
deriving DecidableEq

/-- `_generate_placeholder_video` (`video_generator.py` lines 143-164):
writes a `.txt` file recording prompt, duration, fps, resolution and style. -/
def generatePlaceholderVideo (env : Env) (prompt : String) (duration fps : Nat)
    (resolution style : String) : VideoArtifact :=
  VideoArtifact.placeholderText
    ("placeholder_video_" ++ toString env.timestamp ++ ".txt")
    ⟨prompt, duration, fps, resolution, style⟩

/-- `_generate_runwayml` (lines 55-58): the hosted stub, which always falls
through to placeholder synthesis with the style field set to `"RunwayML"`. -/
def generateRunwayml (env : Env) (prompt : String) (duration fps : Nat)
    (resolution : String) : VideoArtifact :=
  generatePlaceholderVideo env prompt duration fps resolution "RunwayML"

/-- `_generate_local_video` (lines 60-94): placeholder when cv2 is missing,
otherwise `duration * fps` frames rendered by `_create_animated_frame` and
written to an mp4. -/
def generateLocalVideo (env : Env) (prompt : String) (duration fps : Nat)
    (resolution style : String) : Except String VideoArtifact :=
  if ¬ env.cv2Available then
    Except.ok (generatePlaceholderVideo env prompt duration fps resolution style)
  else
    let wh := getResolutionDimensions resolution
    let totalFrames := duration * fps
    let frames := (List.range totalFrames).map fun i =>
      env.createFrame prompt style i totalFrames wh.1 wh.2
    Except.ok (VideoArtifact.mp4 ("local_video_" ++ toString env.timestamp ++ ".mp4")
      wh.1 wh.2 fps frames)

/-- `_image_to_video_local` (lines 100-141): placeholder when cv2 is missing;
otherwise loads the source image (raising, wrapped by the `except` clause,
when `cv2.imread` returns `None`), resizes it to the target resolution, applies
the per-frame motion effect, and writes the frames to an mp4. -/
def imageToVideoLocal (env : Env) (imagePath motionPrompt : String)
    (duration fps : Nat) (resolution : String) : Except String VideoArtifact :=
  if ¬ env.cv2Available then
    Except.ok (generatePlaceholderVideo env motionPrompt duration fps resolution "Image2Video")
  else
    match env.loadImage imagePath with
    | none => Except.error ("Local image-to-video failed: Could not load image: " ++ imagePath)
    | some loaded =>
      let wh := getResolutionDimensions resolution
      let baseImage := env.resize loaded wh.1 wh.2
      let totalFrames := duration * fps
      let frames := (List.range totalFrames).map fun i =>
        applyMotionEffects env.motionFx baseImage motionPrompt i totalFrames
      Except.ok (VideoArtifact.mp4 ("i2v_local_" ++ toString env.timestamp ++ ".mp4")
        wh.1 wh.2 fps frames)

/-- `VideoGenerator.generate` (lines 34-43): provider dispatch. -/
def generateVideo (env : Env) (provider prompt : String) (duration fps : Nat)
    (resolution style : String) : Except String VideoArtifact :=
  if provider = "RunwayML" then
    Except.ok (generateRunwayml env prompt duration fps resolution)
  else if provider = "Local Video" then
    generateLocalVideo env prompt duration fps resolution style
  else
    Except.ok (generatePlaceholderVideo env prompt duration fps resolution style)

/-- `_image_to_video_runwayml` (lines 96-98): delegates to the local path
with fps fixed to 24 and resolution fixed to `"1080p"`. -/
def imageToVideoRunwayml (env : Env) (imagePath motionPrompt : String)
    (duration : Nat) : Except String VideoArtifact :=
  imageToVideoLocal env imagePath motionPrompt duration 24 "1080p"

/-- `VideoGenerator.image_to_video` (lines 45-53): provider dispatch. -/
def imageToVideo (env : Env) (provider imagePath motionPrompt : String)
    (duration fps : Nat) (resolution : String) : Except String VideoArtifact :=
  if provider = "RunwayML" then
    imageToVideoRunwayml env imagePath motionPrompt duration
  else
    imageToVideoLocal env imagePath motionPrompt duration fps resolution

/-- One placeholder image produced by `ImageGenerator._generate_placeholder`:
solid fill colour `(100, 150, 200)` and the overlaid annotation text. -/
structure PlaceholderImage where
  width : Nat
  height : Nat
  color : Nat × Nat × Nat
  text : String
deriving DecidableEq

/-- Python's `str.split(sep)` for a one-character separator, over character
lists. -/
def splitOnChar (sep : Char) : List Char → List (List Char)
  | [] => [[]]
  | c :: t =>
    let r := splitOnChar sep t
    if c == sep then [] :: r
    else
      match r with
      | [] => [[c]]
      | h :: t2 => (c :: h) :: t2

/-- The value of a decimal digit character, `none` for a non-digit. -/
def digitVal (c : Char) : Option Nat :=
  if 48 ≤ c.toNat ∧ c.toNat ≤ 57 then some (c.toNat - 48) else none

/-- Accumulator loop of decimal parsing. -/
def parseNatAux : List Char → Nat → Option Nat
  | [], acc => some acc
  | c :: t, acc =>
    match digitVal c with
    | some d => parseNatAux t (acc * 10 + d)
    | none => none

/-- Python's `int(s)` restricted to plain decimal digit strings; `none`
models the raised `ValueError`. -/
def parseNatChars (l : List Char) : Option Nat :=
  match l with
  | [] => none
  | _ => parseNatAux l 0

/-- Python's `map(int, size.split('x'))` unpacked into `(width, height)`
(`image_generator.py` line 158); `none` models the `ValueError` raised when
the string is not of the form `"WxH"`. -/
def parseSize (size : String) : Option (Nat × Nat) :=
  match splitOnChar 'x' size.data with
  | [w, h] =>
    match parseNatChars w, parseNatChars h with
    | some wn, some hn => some (wn, hn)
    | _, _ => none
  | _ => none

/-- The loop body of `_generate_placeholder`: one solid image per
`i in range(num_images)`, each annotated
`f"Generated Image \x7bi+1\x7d\n\x7bprompt[:50]\x7d..."`. -/
def placeholderImageList (prompt : String) (numImages w h : Nat) :
    List PlaceholderImage :=
  (List.range numImages).map fun i =>
    { width := w, height := h, color := (100, 150, 200),
      text := "Generated Image " ++ toString (i + 1) ++ "\n" ++ prompt.take 50 ++ "..." }

/-- `_generate_placeholder` (`image_generator.py` lines 156-185): parses the
`"WxH"` size string, then synthesizes `num_images` annotated solid images. -/
def generatePlaceholder (prompt : String) (numImages : Nat) (size : String) :
    Option (List PlaceholderImage) :=
  match parseSize size with
  | none => none
  | some wh => some (placeholderImageList prompt numImages wh.1 wh.2)

/-- A file on disk together with its modification time (`st_mtime`, a float
modelled as `ℚ`). -/
structure StoredFile where
  path : String
  mtime : ℚ
deriving DecidableEq

/-- `FileManager.cleanup_temp_files` (`file_manager.py` lines 68-79): unlinks
every temp file whose age `current_time - st_mtime` strictly exceeds
`max_age_hours * 3600`; the result is the list of surviving files. -/
def cleanupTempFiles (currentTime maxAgeHours : ℚ) (files : List StoredFile) :
    List StoredFile :=
  files.filter fun f => ! decide (currentTime - f.mtime > maxAgeHours * 3600)

/-- `FileManager.get_generated_files` (`file_manager.py` lines 81-91): collects
the image and/or video files selected by `file_type`, then returns them sorted
by modification time in descending order (`sorted(..., key=getmtime,
reverse=True)`, a stable sort, here insertion sort under `b.mtime ≤ a.mtime`). -/
def getGeneratedFiles (images videos : List StoredFile) (fileType : String) :
    List StoredFile :=
  let files :=
    (if fileType = "all" ∨ fileType = "images" then images else []) ++
    (if fileType = "all" ∨ fileType = "videos" then videos else [])
  files.insertionSort fun a b => b.mtime ≤ a.mtime

/-! ## Theorems -/

/-- Claim C2: the dimension mapping returns exactly `(1280, 720)` for `"720p"`,
`(1920, 1080)` for `"1080p"`, `(3840, 2160)` for `"4K"`, `(1024, 1024)` for
`"square"`, and `(1920, 1080)` (the 1080p dimensions) for every string outside
this known set. -/
theorem getResolutionDimensions_spec :
    getResolutionDimensions "720p" = (1280, 720) ∧
    getResolutionDimensions "1080p" = (1920, 1080) ∧
    getResolutionDimensions "4K" = (3840, 2160) ∧
    getResolutionDimensions "square" = (1024, 1024) ∧
    ∀ r : String, r ≠ "720p" → r ≠ "1080p" → r ≠ "4K" → r ≠ "square" →
      getResolutionDimensions r = (1920, 1080) := by
  refine ⟨rfl, rfl, rfl, rfl, ?_⟩
  intro r h1 h2 h3 h4
  simp [getResolutionDimensions, h1, h2, h3, h4]

/-- Witness for C2 at the unknown resolution name `"480p"`. -/
theorem getResolutionDimensions_spec_witness :
    getResolutionDimensions "480p" = (1920, 1080) :=
  getResolutionDimensions_spec.2.2.2.2 "480p" (by decide) (by decide) (by decide)
    (by decide)

/-- Claim C9: for provider `"RunwayML"`, `image_to_video` ignores the caller's
fps and resolution arguments: for every fps and resolution passed in, the call
is exactly the local image-to-video path with fps fixed to `24` and resolution
fixed to `"1080p"`. -/
theorem imageToVideo_runwayml_fixed_params (env : Env)
    (imagePath motionPrompt : String) (duration fps : Nat) (resolution : String) :
    imageToVideo env "RunwayML" imagePath motionPrompt duration fps resolution =
      imageToVideoLocal env imagePath motionPrompt duration 24 "1080p" := by
  simp [imageToVideo, imageToVideoRunwayml]

/-- Claim C10: when a motion prompt matches several keywords, exactly one
effect is selected, with fixed precedence zoom over wave over rotate: a prompt
containing `"zoom"` always selects the zoom effect, and a prompt containing
`"wave"` but not `"zoom"` always selects the wave effect, whatever else the
prompt contains. -/
theorem selectMotionOp_precedence (motionPrompt : String) (i n : Nat) :
    (strContainsLower motionPrompt "zoom" = true →
      selectMotionOp motionPrompt i n =
        MotionOp.zoom (1 + (1 / 5) * ((i : ℚ) / (n : ℚ)))) ∧
    (strContainsLower motionPrompt "zoom" = false →
      strContainsLower motionPrompt "wave" = true →
      selectMotionOp motionPrompt i n = MotionOp.wave ((i : ℚ) / (n : ℚ))) := by
  constructor
  · intro hz
    simp [selectMotionOp, hz]
  · intro hz hw
    simp [selectMotionOp, hz, hw]

/-- Witness for C10: a prompt containing both `"zoom"` and `"rotate"` receives
only the zoom effect. -/
theorem selectMotionOp_precedence_witness :
    selectMotionOp "zoom and rotate" 1 2 =
      MotionOp.zoom (1 + (1 / 5) * ((1 : ℚ) / (2 : ℚ))) :=
  (selectMotionOp_precedence "zoom and rotate" 1 2).1 (by decide)

/-- Claim C7: for a motion prompt containing `"rotate"` (and no
higher-precedence keyword), the rotation angle applied to frame `i` of `n`
total frames is `360 * i / n` degrees, so the final frame `i = n - 1` is
rotated by `360 * (n - 1) / n` degrees. -/
theorem selectMotionOp_rotate_angle (motionPrompt : String) (i n : Nat)
    (hz : strContainsLower motionPrompt "zoom" = false)
    (hw : strContainsLower motionPrompt "wave" = false)
    (hr : strContainsLower motionPrompt "rotate" = true)
    (hn : 0 < n) :
    selectMotionOp motionPrompt i n = MotionOp.rotate (360 * (i : ℚ) / (n : ℚ)) ∧
    selectMotionOp motionPrompt (n - 1) n =
      MotionOp.rotate (360 * ((n : ℚ) - 1) / (n : ℚ)) := by
  have hcast : ((n - 1 : Nat) : ℚ) = (n : ℚ) - 1 := by
    push_cast [Nat.one_le_iff_ne_zero.mpr hn.ne']
    ring
  constructor
  · simp [selectMotionOp, hz, hw, hr, mul_div_assoc]
  · simp [selectMotionOp, hz, hw, hr, hcast, mul_div_assoc]

/-- Witness for C7 at the prompt `"rotate slowly"` with 4 frames: the final
frame is rotated by `360 * 3 / 4 = 270` degrees. -/
theorem selectMotionOp_rotate_angle_witness :
    selectMotionOp "rotate slowly" 3 4 =
      MotionOp.rotate (360 * ((4 : ℚ) - 1) / (4 : ℚ)) :=
  (selectMotionOp_rotate_angle "rotate slowly" 3 4 (by decide) (by decide)
    (by decide) (by decide)).2

instance : IsTotal StoredFile fun a b => b.mtime ≤ a.mtime :=
  ⟨fun a b => le_total b.mtime a.mtime⟩

instance : IsTrans StoredFile fun a b => b.mtime ≤ a.mtime :=
  ⟨fun _ _ _ hab hbc => le_trans hbc hab⟩

/-- Claim C5: the file-listing operation, for every choice of `file_type`
(`"images"`, `"videos"`, `"all"` or anything else), returns the collected
files sorted by modification time in descending order. -/
theorem getGeneratedFiles_sorted_desc (images videos : List StoredFile)
    (fileType : String) :
    (getGeneratedFiles images videos fileType).Sorted fun a b => b.mtime ≤ a.mtime := by
  unfold getGeneratedFiles
  exact List.sorted_insertionSort _ _

/-- Claim C6: for a motion prompt containing none of `"zoom"`, `"wave"`,
`"rotate"` (case-insensitive), the local image-to-video path produces frames
that are all bit-for-bit equal to the resized source image: the whole frame
list is a replication of the resized source, whatever the effect primitives
`env.motionFx` do. -/
theorem imageToVideoLocal_no_keyword_identity (env : Env)
    (imagePath motionPrompt : String) (duration fps : Nat) (resolution : String)
    (img : Image)
    (hcv : env.cv2Available = true)
    (himg : env.loadImage imagePath = some img)
    (hz : strContainsLower motionPrompt "zoom" = false)
    (hw : strContainsLower motionPrompt "wave" = false)
    (hr : strContainsLower motionPrompt "rotate" = false) :
    imageToVideoLocal env imagePath motionPrompt duration fps resolution =
      Except.ok (VideoArtifact.mp4 ("i2v_local_" ++ toString env.timestamp ++ ".mp4")
        (getResolutionDimensions resolution).1 (getResolutionDimensions resolution).2 fps
        (List.replicate (duration * fps)
          (env.resize img (getResolutionDimensions resolution).1
            (getResolutionDimensions resolution).2))) := by
  have hsel : ∀ i, applyMotionEffects env.motionFx
      (env.resize img (getResolutionDimensions resolution).1
        (getResolutionDimensions resolution).2) motionPrompt i (duration * fps) =
      env.resize img (getResolutionDimensions resolution).1
        (getResolutionDimensions resolution).2 := by
    intro i
    unfold applyMotionEffects selectMotionOp
    simp [hz, hw, hr]
  unfold imageToVideoLocal
  simp [hcv, himg, hsel]

/-- A concrete environment: cv2 present, a loadable one-pixel image, and
trivial effect primitives. -/
def envOk : Env where
  cv2Available := true
  loadImage := fun _ => some [[(1, 2, 3)]]
  resize := fun i _ _ => i
  motionFx := fun _ i => i
  createFrame := fun _ _ _ _ _ _ => []
  timestamp := 0

/-- Witness for C6: the keyword-free motion prompt `"pan left"` on a concrete
environment yields two frames both equal to the resized source image. -/
theorem imageToVideoLocal_no_keyword_identity_witness :
    envOk.cv2Available = true ∧
    envOk.loadImage "a.png" = some [[(1, 2, 3)]] ∧
    strContainsLower "pan left" "zoom" = false ∧
    strContainsLower "pan left" "wave" = false ∧
    strContainsLower "pan left" "rotate" = false ∧
    imageToVideoLocal envOk "a.png" "pan left" 1 2 "square" =
      Except.ok (VideoArtifact.mp4 ("i2v_local_" ++ toString envOk.timestamp ++ ".mp4")
        (getResolutionDimensions "square").1 (getResolutionDimensions "square").2 2
        (List.replicate (1 * 2)
          (envOk.resize [[(1, 2, 3)]] (getResolutionDimensions "square").1
            (getResolutionDimensions "square").2))) :=
  ⟨rfl, rfl, by decide, by decide, by decide,
    imageToVideoLocal_no_keyword_identity envOk "a.png" "pan left" 1 2 "square"
      [[(1, 2, 3)]] rfl rfl (by decide) (by decide) (by decide)⟩

/-- A concrete environment in which cv2 is present but the source image
cannot be loaded (`cv2.imread` returns `None`). -/
def envBadImage : Env where
  cv2Available := true
  loadImage := fun _ => none
  resize := fun i _ _ => i
  motionFx := fun _ i => i
  createFrame := fun _ _ _ _ _ _ => []
  timestamp := 0

/-- Counterexample to claim C1: with cv2 available and an unloadable source
image, `image_to_video` on the local path does not return a placeholder text
file — it propagates a raised exception (`Except.error`) wrapping the
`Could not load image` failure. -/
theorem imageToVideo_unloadable_raises :
    imageToVideo envBadImage "Local Video" "missing.png" "zoom" 1 1 "720p" =
      Except.error "Local image-to-video failed: Could not load image: missing.png" := by
  rfl

/-- Claim C1 as amended: when cv2 is unavailable, both local video paths
return the placeholder text artifact recording the request parameters; but
when cv2 is available and processing fails (the source image cannot be
loaded), the local image-to-video path raises a wrapped exception instead of
falling back to a placeholder. -/
theorem localPaths_placeholder_or_raise (env : Env)
    (prompt imagePath motionPrompt : String) (duration fps : Nat)
    (resolution style : String) :
    (env.cv2Available = false →
      generateLocalVideo env prompt duration fps resolution style =
        Except.ok (generatePlaceholderVideo env prompt duration fps resolution style) ∧
      imageToVideoLocal env imagePath motionPrompt duration fps resolution =
        Except.ok (generatePlaceholderVideo env motionPrompt duration fps resolution
          "Image2Video")) ∧
    (env.cv2Available = true → env.loadImage imagePath = none →
      imageToVideoLocal env imagePath motionPrompt duration fps resolution =
        Except.error ("Local image-to-video failed: Could not load image: " ++ imagePath)) := by
  constructor
  · intro hcv
    constructor
    · simp [generateLocalVideo, hcv]
    · simp [imageToVideoLocal, hcv]
  · intro hcv himg
    simp [imageToVideoLocal, hcv, himg]

/-- A concrete environment in which cv2 is unavailable. -/
def envNoCv2 : Env where
  cv2Available := false
  loadImage := fun _ => none
  resize := fun i _ _ => i
  motionFx := fun _ i => i
  createFrame := fun _ _ _ _ _ _ => []
  timestamp := 0

/-- Witness for the amended C1: without cv2, the local video path returns the
placeholder artifact. -/
theorem localPaths_placeholder_or_raise_witness :
    envNoCv2.cv2Available = false ∧
    generateLocalVideo envNoCv2 "p" 1 1 "720p" "Realistic" =
      Except.ok (generatePlaceholderVideo envNoCv2 "p" 1 1 "720p" "Realistic") :=
  ⟨rfl,
    ((localPaths_placeholder_or_raise envNoCv2 "p" "a.png" "m" 1 1 "720p"
      "Realistic").1 rfl).1⟩

/-- Counterexample to claim C8: for provider `"RunwayML"` with request style
`"Realistic"`, the placeholder artifact records style `"RunwayML"`, not the
style of the request. -/
theorem generateVideo_runwayml_style_not_request :
    generateVideo envOk "RunwayML" "p" 5 24 "720p" "Realistic" =
      Except.ok (VideoArtifact.placeholderText
        ("placeholder_video_" ++ toString envOk.timestamp ++ ".txt")
        ⟨"p", 5, 24, "720p", "RunwayML"⟩) ∧
    "RunwayML" ≠ "Realistic" := by
  exact ⟨rfl, by decide⟩

/-- Claim C8 as amended: the hosted (RunwayML) path and the unknown/fallback
path of the video generate operation both return a placeholder `.txt`
artifact recording the request's prompt, duration, fps and resolution — no
mp4 is produced; the fallback path records the request's style while the
RunwayML stub records the fixed style string `"RunwayML"`. -/
theorem generateVideo_placeholder_paths (env : Env) (provider prompt : String)
    (duration fps : Nat) (resolution style : String) :
    (provider = "RunwayML" →
      generateVideo env provider prompt duration fps resolution style =
        Except.ok (VideoArtifact.placeholderText
          ("placeholder_video_" ++ toString env.timestamp ++ ".txt")
          ⟨prompt, duration, fps, resolution, "RunwayML"⟩)) ∧
    (provider ≠ "RunwayML" → provider ≠ "Local Video" →
      generateVideo env provider prompt duration fps resolution style =
        Except.ok (VideoArtifact.placeholderText
          ("placeholder_video_" ++ toString env.timestamp ++ ".txt")
          ⟨prompt, duration, fps, resolution, style⟩)) := by
  constructor
  · intro hp
    simp [generateVideo, hp, generateRunwayml, generatePlaceholderVideo]
  · intro hp1 hp2
    simp [generateVideo, hp1, hp2, generatePlaceholderVideo]

/-- Witness for the amended C8 on the fallback path at provider `"Fallback"`. -/
theorem generateVideo_placeholder_paths_witness :
    generateVideo envOk "Fallback" "p" 3 24 "720p" "Anime" =
      Except.ok (VideoArtifact.placeholderText
        ("placeholder_video_" ++ toString envOk.timestamp ++ ".txt")
        ⟨"p", 3, 24, "720p", "Anime"⟩) :=
  (generateVideo_placeholder_paths envOk "Fallback" "p" 3 24 "720p" "Anime").2
    (by decide) (by decide)

/-- Claim C3: for every prompt, count `n` and size string of the form
`"WxH"`, fallback placeholder image generation returns exactly `n` images,
each of exactly `W × H` pixels, each annotated `"Generated Image i"`
(`i = 1..n`) plus the prompt truncated to 50 characters; it never fails on
such inputs. -/
theorem generatePlaceholder_spec (prompt size : String) (n w h : Nat)
    (hp : parseSize size = some (w, h)) :
    generatePlaceholder prompt n size = some (placeholderImageList prompt n w h) ∧
    (placeholderImageList prompt n w h).length = n ∧
    ∀ i, (hi : i < (placeholderImageList prompt n w h).length) →
      (placeholderImageList prompt n w h).get ⟨i, hi⟩ =
        { width := w, height := h, color := (100, 150, 200),
          text := "Generated Image " ++ toString (i + 1) ++ "\n" ++
            prompt.take 50 ++ "..." } := by
  refine ⟨?_, ?_, ?_⟩
  · simp [generatePlaceholder, hp]
  · simp [placeholderImageList]
  · intro i hi
    simp [placeholderImageList] at hi ⊢

/-- Witness for C3: the spec's example scenario, `count = 2` at size
`"512x512"`. -/
theorem generatePlaceholder_spec_witness :
    parseSize "512x512" = some (512, 512) ∧
    generatePlaceholder "a red cube" 2 "512x512" =
      some (placeholderImageList "a red cube" 2 512 512) ∧
    (placeholderImageList "a red cube" 2 512 512).length = 2 :=
  ⟨by decide,
    (generatePlaceholder_spec "a red cube" "512x512" 2 512 512 (by decide)).1,
    (generatePlaceholder_spec "a red cube" "512x512" 2 512 512 (by decide)).2.1⟩

/-- Counterexample to claim C4: with `max_age_hours = 0`, a temp file whose
modification time equals the current time is not deleted — the sweep deletes
only files of strictly positive age, so it does not delete every file in the
directory. -/
theorem cleanupTempFiles_zero_keeps_fresh :
    cleanupTempFiles 100 0 [⟨"fresh.png", 100⟩] = [⟨"fresh.png", (100 : ℚ)⟩] ∧
    ([⟨"fresh.png", (100 : ℚ)⟩] : List StoredFile) ≠ [] := by
  have h : ¬ ((100 : ℚ) - 100 > 0 * 3600) := by norm_num
  exact ⟨by simp [cleanupTempFiles, List.filter_cons, h], by simp⟩

/-- Claim C4 as amended: with `max_age_hours = 0` the sweep deletes exactly
those temp files whose modification time is strictly before the current time
(a file modified at or after the current instant survives), and with a
threshold at least the age of every file present it deletes none. -/
theorem cleanupTempFiles_spec (t maxAge : ℚ) (files : List StoredFile)
    (g : StoredFile) :
    (g ∈ cleanupTempFiles t 0 files ↔ g ∈ files ∧ t - g.mtime ≤ 0) ∧
    ((∀ f ∈ files, t - f.mtime ≤ maxAge * 3600) →
      cleanupTempFiles t maxAge files = files) := by
  constructor
  · simp [cleanupTempFiles, List.mem_filter, not_lt]
  · intro hall
    apply List.filter_eq_self.mpr
    intro f hf
    simpa [not_lt] using hall f hf

/-- Witness for the amended C4: a one-hour threshold retains a file that is
three seconds old. -/
theorem cleanupTempFiles_spec_witness :
    cleanupTempFiles 10 1 [⟨"a.png", (7 : ℚ)⟩] = [⟨"a.png", (7 : ℚ)⟩] :=
  (cleanupTempFiles_spec 10 1 [⟨"a.png", 7⟩] ⟨"a.png", 7⟩).2 (by
    intro f hf
    rw [List.mem_singleton] at hf
    subst hf
    norm_num)

end MediaGen
